import Mathlib

/-!
Verification development for the Dictionary component of the
`DictionaryProject` repository.

The component (two source lineages of `Dictionary.jsx`) manages:
  * a lookup controller (`searchWord`): validates the query, issues one
    GET to `https://api.dictionaryapi.dev/api/v2/entries/en/<word>`,
    and writes the result / error / loading fields of the UI state;
  * a favorites store (`toggleFavorite`, `removeFavorite`, and a startup
    load in `useEffect`): an ordered list of `{word, definition}` entries
    mirrored in full to a browser storage slot on every mutation.

The embedding below models JavaScript values landing in the state as a
`Json` inductive; the browser storage slot is modelled by the JSON
document its stored string denotes (`JSON.stringify` / `JSON.parse` are
the external bijection between valid JSON strings and documents, so a
slot holding string `JSON.stringify v` is modelled as holding `v`; an
absent key is `none`).  The network is a function from the request URL
to an outcome: either the fetch promise rejects, or a response arrives
with a status and the outcome of `response.json()` (which itself can
throw on a malformed body).
-/

/-- JavaScript/JSON values, as produced by `JSON.parse` / `response.json()`. -/
inductive Json where
  | null : Json
  | bool (b : Bool) : Json
  | num (n : Int) : Json
  | str (s : String) : Json
  | arr (items : List Json) : Json
  | obj (fields : List (String × Json)) : Json
deriving Repr

/-- One element of the `favorites` array: `{ word, definition: def }`
(`toggleFavorite` in both lineages).  The `definition` is the raw
definition document, stored untyped. -/
structure FavoriteEntry where
  word : String
  definition : Json
deriving Repr

/-- The React state of the `Dictionary` component, plus the `'favorites'`
slots of the two browser storage backends (`localStorage`, used by
lineage part_001, and `sessionStorage`, used by lineage part_002). -/
structure DictState where
  /-- `useState('')`: the query input. -/
  word : String
  /-- `useState(null)`: the current definition document (`data[0]`), if any. -/
  definition : Option Json
  /-- `useState('')`: the current error message. -/
  error : String
  /-- `useState(false)`: the pending flag. -/
  loading : Bool
  /-- `useState([])`: the in-memory favorites list. -/
  favorites : List FavoriteEntry
  /-- The document stored under key `'favorites'` in `localStorage`. -/
  localStorageFavorites : Option Json
  /-- The document stored under key `'favorites'` in `sessionStorage`. -/
  sessionStorageFavorites : Option Json
deriving Repr

/-- `JSON.stringify(newFavorites)`, at the document level: the array of
`{word, definition}` objects (keys in insertion order). -/
def favoritesToJson (favs : List FavoriteEntry) : Json :=
  .arr (favs.map fun fav => .obj [("word", .str fav.word), ("definition", fav.definition)])

/-- `favorites.some(fav => fav.word === word)` — the exact-string
membership test both lineages use (spec §4.2 `isFavorite`). -/
def isFavorite (favs : List FavoriteEntry) (word : String) : Bool :=
  favs.any fun fav => fav.word == word

/-- `toggleFavorite` list transition, lineage part_001 (lines 55–62):
remove if present, else append `{word, definition: def}`. -/
def toggleFavorite₁ (favs : List FavoriteEntry) (word : String) (def' : Json) :
    List FavoriteEntry :=
  if favs.any fun fav => fav.word == word then
    favs.filter fun fav => fav.word != word
  else
    favs ++ [⟨word, def'⟩]

/-- `toggleFavorite` list transition, lineage part_002 (lines 51–58). -/
def toggleFavorite₂ (favs : List FavoriteEntry) (word : String) (def' : Json) :
    List FavoriteEntry :=
  if favs.any fun fav => fav.word == word then
    favs.filter fun fav => fav.word != word
  else
    favs ++ [⟨word, def'⟩]

/-- `removeFavorite` list transition, lineage part_001 (lines 64–68):
`favorites.filter(fav => fav.word !== word)`. -/
def removeFavorite₁ (favs : List FavoriteEntry) (word : String) : List FavoriteEntry :=
  favs.filter fun fav => fav.word != word

/-- `removeFavorite` list transition, lineage part_002 (lines 60–64). -/
def removeFavorite₂ (favs : List FavoriteEntry) (word : String) : List FavoriteEntry :=
  favs.filter fun fav => fav.word != word

/-- `toggleFavorite` as a state transition, lineage part_001:
`setFavorites(newFavorites); localStorage.setItem('favorites', JSON.stringify(newFavorites))`. -/
def toggleFavoriteState₁ (s : DictState) (word : String) (def' : Json) : DictState :=
  let newFavorites := toggleFavorite₁ s.favorites word def'
  { s with favorites := newFavorites,
           localStorageFavorites := some (favoritesToJson newFavorites) }

/-- `toggleFavorite` as a state transition, lineage part_002: identical
list update, but the serialized list goes to `sessionStorage`. -/
def toggleFavoriteState₂ (s : DictState) (word : String) (def' : Json) : DictState :=
  let newFavorites := toggleFavorite₂ s.favorites word def'
  { s with favorites := newFavorites,
           sessionStorageFavorites := some (favoritesToJson newFavorites) }

/-- `removeFavorite` as a state transition, lineage part_001. -/
def removeFavoriteState₁ (s : DictState) (word : String) : DictState :=
  let newFavorites := removeFavorite₁ s.favorites word
  { s with favorites := newFavorites,
           localStorageFavorites := some (favoritesToJson newFavorites) }

/-- `removeFavorite` as a state transition, lineage part_002. -/
def removeFavoriteState₂ (s : DictState) (word : String) : DictState :=
  let newFavorites := removeFavorite₂ s.favorites word
  { s with favorites := newFavorites,
           sessionStorageFavorites := some (favoritesToJson newFavorites) }

/-- JavaScript bracket indexing, as in `data[0]`: array element, object
property named by the index, or single character of a string; `none`
models `undefined`. -/
def jsIndex (j : Json) (i : Nat) : Option Json :=
  match j with
  | .arr items => items[i]?
  | .obj fields => (fields.find? fun f => f.1 == toString i).map (·.2)
  | .str s => (s.toList[i]?).map fun c => .str (String.singleton c)
  | _ => none

/-- ASCII whitespace recognised by JavaScript `String.prototype.trim()`
(space, tab, line feed, carriage return, vertical tab, form feed; the
further Unicode space code points never arise in this development). -/
def jsWhitespace (c : Char) : Bool :=
  c == ' ' || c == '\t' || c == '\n' || c == '\r' || c == '\x0b' || c == '\x0c'

/-- JavaScript `String.prototype.trim()` (an external runtime builtin):
strip leading and trailing whitespace. -/
def jsTrim (s : String) : String :=
  ((s.toList.dropWhile jsWhitespace).reverse.dropWhile jsWhitespace).reverse.asString

/-- The local-validation message (spec error kind `EmptyQuery`). -/
def emptyQueryMessage : String := "Please enter a word to search"

/-- The generic upstream-failure message (spec error kind `NotFound`);
constant, so not derived from the response body. -/
def notFoundMessage : String := "Word not found"

/-- The transport-failure message (spec error kind `Transport`):
`` `An error occurred: ${err.message}` ``. -/
def transportMessage (m : String) : String := "An error occurred: " ++ m

/-- Outcome of `await fetch(url)` followed by `await response.json()`:
either the fetch promise rejects with an error message, or a response
arrives with an HTTP status and the outcome of parsing its body as JSON
(`Except.error` models `response.json()` throwing). -/
inductive NetResult where
  | response (status : Nat) (body : Except String Json) : NetResult
  | failure (msg : String) : NetResult

/-- `Response.ok` of the Fetch API: status in the range 200–299. -/
def httpOk (status : Nat) : Bool :=
  decide (200 ≤ status ∧ status < 300)

/-- The URL template of the lookup request: the raw query string is
interpolated, with no encoding. -/
def requestUrl (word : String) : String :=
  "https://api.dictionaryapi.dev/api/v2/entries/en/" ++ word

/-- `searchWord`, lineage part_001 (lines 22–47), as a function from the
current state and the network behaviour to the resulting state and the
URL of the request issued (`none` when no network call is made).
Mirrors the source exactly: empty-after-trim query returns early with
the validation message; otherwise loading is set, previous error and
definition cleared, one GET issued, `response.json()` awaited, then the
`response.ok` branch sets `data[0]` as the definition, the non-ok branch
sets `'Word not found'`, any thrown error sets the transport message,
and `finally` clears loading. -/
def searchWord₁ (s : DictState) (net : String → NetResult) : DictState × Option String :=
  if jsTrim s.word = "" then
    ({ s with error := emptyQueryMessage }, none)
  else
    let url := requestUrl s.word
    let s₁ := { s with loading := true, error := "", definition := none }
    let s₂ :=
      match net url with
      | .response status (.ok data) =>
          if httpOk status then { s₁ with definition := jsIndex data 0 }
          else { s₁ with error := notFoundMessage }
      | .response _ (.error msg) => { s₁ with error := transportMessage msg }
      | .failure msg => { s₁ with error := transportMessage msg }
    ({ s₂ with loading := false }, some url)

/-- `searchWord`, lineage part_002 (lines 20–45): identical to lineage
part_001 except that its `finally` block also resets the query field
(`setWord('')`). -/
def searchWord₂ (s : DictState) (net : String → NetResult) : DictState × Option String :=
  if jsTrim s.word = "" then
    ({ s with error := emptyQueryMessage }, none)
  else
    let url := requestUrl s.word
    let s₁ := { s with loading := true, error := "", definition := none }
    let s₂ :=
      match net url with
      | .response status (.ok data) =>
          if httpOk status then { s₁ with definition := jsIndex data 0 }
          else { s₁ with error := notFoundMessage }
      | .response _ (.error msg) => { s₁ with error := transportMessage msg }
      | .failure msg => { s₁ with error := transportMessage msg }
    ({ s₂ with loading := false, word := "" }, some url)

/-- Inverse of `favoritesToJson` on one entry; part of the storage
denotation model: it recovers the typed entry from the stored document.
`none` models a stored value whose shape is not a favorites entry (the
source does not validate; in JS such a value lands in the state as-is). -/
def decodeEntry : Json → Option FavoriteEntry
  | .obj [("word", .str w), ("definition", d)] => some ⟨w, d⟩
  | _ => none

/-- Inverse of `favoritesToJson`; see `decodeEntry`. -/
def decodeFavorites : Json → Option (List FavoriteEntry)
  | .arr items => items.mapM decodeEntry
  | _ => none

/-- Startup load, lineage part_001 (lines 16–19):
`JSON.parse(localStorage.getItem('favorites') || '[]')` then
`setFavorites`.  An absent key (`getItem` returning `null`) defaults to
the empty array.  Returns `none` when the stored document is not a
favorites array (unvalidated in the source). -/
def loadFavoritesState₁ (s : DictState) : Option DictState :=
  (decodeFavorites (s.localStorageFavorites.getD (.arr []))).map
    fun favs => { s with favorites := favs }

/-- Startup load, lineage part_002 (lines 15–18), reading `sessionStorage`. -/
def loadFavoritesState₂ (s : DictState) : Option DictState :=
  (decodeFavorites (s.sessionStorageFavorites.getD (.arr []))).map
    fun favs => { s with favorites := favs }

/-- The initial React state: empty query, no definition, no error, not
loading, empty favorites; both storage slots as given. -/
def initialState (localFavs sessionFavs : Option Json) : DictState :=
  { word := "", definition := none, error := "", loading := false,
    favorites := [], localStorageFavorites := localFavs,
    sessionStorageFavorites := sessionFavs }

/-- The favorites-collection invariant (spec §3): no two entries share
the same `word`. -/
def UniqueWords (l : List FavoriteEntry) : Prop :=
  l.Pairwise fun a b => a.word ≠ b.word

theorem any_word_eq_iff (favs : List FavoriteEntry) (w : String) :
    (favs.any fun fav => fav.word == w) = true ↔ ∃ e ∈ favs, e.word = w := by
  simp [List.any_eq_true]

theorem filter_word_ne_eq_self (favs : List FavoriteEntry) (w : String)
    (h : ∀ e ∈ favs, e.word ≠ w) :
    (favs.filter fun fav => fav.word != w) = favs := by
  rw [List.filter_eq_self]
  intro e he
  simpa using h e he

theorem mem_filter_word_ne (favs : List FavoriteEntry) (w : String) (e : FavoriteEntry) :
    e ∈ (favs.filter fun fav => fav.word != w) ↔ e ∈ favs ∧ e.word ≠ w := by
  simp [List.mem_filter]

theorem decodeFavorites_favoritesToJson (l : List FavoriteEntry) :
    decodeFavorites (favoritesToJson l) = some l := by
  induction l with
  | nil => rfl
  | cons e t ih =>
    have ih' : List.mapM decodeEntry
        (t.map fun fav => Json.obj [("word", .str fav.word), ("definition", fav.definition)])
        = some t := ih
    show List.mapM decodeEntry
        ((e :: t).map fun fav => Json.obj [("word", .str fav.word), ("definition", fav.definition)])
        = some (e :: t)
    rw [List.map_cons, List.mapM_cons, ih']
    rfl

theorem toggleFavorite₁_of_mem (favs : List FavoriteEntry) (w : String) (d : Json)
    (h : ∃ e ∈ favs, e.word = w) :
    toggleFavorite₁ favs w d = favs.filter fun fav => fav.word != w := by
  unfold toggleFavorite₁
  rw [if_pos ((any_word_eq_iff favs w).mpr h)]

theorem toggleFavorite₁_of_not_mem (favs : List FavoriteEntry) (w : String) (d : Json)
    (h : ¬ ∃ e ∈ favs, e.word = w) :
    toggleFavorite₁ favs w d = favs ++ [⟨w, d⟩] := by
  unfold toggleFavorite₁
  rw [if_neg (fun hc => h ((any_word_eq_iff favs w).mp hc))]

/-- **C1** counterexample: starting from the favorites collection
`[a, b]`, toggling `"a"` (a non-empty word) twice yields `[b, a]`, not
the original collection — the toggled entry is re-appended at the end,
so the original order is not restored. -/
theorem toggle_twice_not_identity_cex :
    ¬ (toggleFavorite₁ (toggleFavorite₁
          [⟨"a", .null⟩, ⟨"b", .null⟩] "a" .null) "a" .null
        = [⟨"a", .null⟩, ⟨"b", .null⟩]) := by
  intro h
  have hb : ("b" : String) = "a" :=
    congrArg (fun l => (l.headD ⟨"", .null⟩).word) h
  exact absurd hb (by decide)

/-- **C1** (amended): toggling a non-empty word twice restores the
original collection exactly when the word was not favorited; when it was
favorited, the double toggle preserves word-membership and the relative
order of all other entries, but moves the toggled word's entry to the
end of the collection (carrying the supplied definition). -/
theorem toggle_toggle_restores (favs : List FavoriteEntry) (w : String) (d : Json)
    (_hw : w ≠ "") :
    (¬ (∃ e ∈ favs, e.word = w) →
      toggleFavorite₁ (toggleFavorite₁ favs w d) w d = favs) ∧
    ((∃ e ∈ favs, e.word = w) →
      toggleFavorite₁ (toggleFavorite₁ favs w d) w d
        = (favs.filter fun fav => fav.word != w) ++ [⟨w, d⟩] ∧
      ∀ x, isFavorite (toggleFavorite₁ (toggleFavorite₁ favs w d) w d) x
            = isFavorite favs x) := by
  constructor
  · intro h
    rw [toggleFavorite₁_of_not_mem favs w d h]
    have hmem : ∃ e ∈ favs ++ [(⟨w, d⟩ : FavoriteEntry)], e.word = w :=
      ⟨⟨w, d⟩, by simp, rfl⟩
    rw [toggleFavorite₁_of_mem _ w d hmem, List.filter_append,
        filter_word_ne_eq_self favs w (fun e he hew => h ⟨e, he, hew⟩)]
    simp
  · intro h
    have h1 : toggleFavorite₁ favs w d = favs.filter fun fav => fav.word != w :=
      toggleFavorite₁_of_mem favs w d h
    have hnot : ¬ ∃ e ∈ favs.filter (fun fav => fav.word != w), e.word = w := by
      rintro ⟨e, he, hew⟩
      rw [mem_filter_word_ne] at he
      exact he.2 hew
    have h2 : toggleFavorite₁ (toggleFavorite₁ favs w d) w d
        = (favs.filter fun fav => fav.word != w) ++ [⟨w, d⟩] := by
      rw [h1, toggleFavorite₁_of_not_mem _ w d hnot]
    refine ⟨h2, ?_⟩
    intro x
    rw [h2]
    by_cases hx : x = w
    · subst hx
      have hr : isFavorite favs x = true := (any_word_eq_iff favs x).mpr h
      have hl : isFavorite ((favs.filter fun fav => fav.word != x) ++ [⟨x, d⟩]) x = true := by
        simp [isFavorite]
      rw [hl, hr]
    · rw [Bool.eq_iff_iff]
      simp only [isFavorite, List.any_eq_true, List.mem_append, List.mem_filter,
        List.mem_singleton, beq_iff_eq, bne_iff_ne]
      constructor
      · rintro ⟨e, he | he, hex⟩
        · exact ⟨e, he.1, hex⟩
        · subst he
          exact absurd hex (by simpa using fun hc => hx hc.symm)
      · rintro ⟨e, he, hex⟩
        exact ⟨e, .inl ⟨he, by rw [hex]; exact hx⟩, hex⟩

/-- Witness for `toggle_toggle_restores` at a concrete input: word
`"a"` absent from `[b]`, double toggle restores `[b]`. -/
theorem toggle_toggle_restores_witness :
    toggleFavorite₁ (toggleFavorite₁ [⟨"b", .null⟩] "a" .null) "a" .null
      = [⟨"b", .null⟩] :=
  (toggle_toggle_restores [⟨"b", .null⟩] "a" .null (by decide)).1
    (by
      rintro ⟨e, he, hew⟩
      simp only [List.mem_singleton] at he
      subst he
      exact absurd hew (by decide))

/-- **C2**: `toggle(word, definition)` removes the entries whose `word`
field equals the given word exactly (at most one under the uniqueness
invariant — `removeFavorite_spec` settles that count) when one exists,
otherwise appends `{word, definition}` at the end; in both cases the
whole resulting collection is re-serialized to the lineage's storage
slot.  Stated for both lineages. -/
theorem toggleFavorite_spec (s : DictState) (w : String) (d : Json) :
    ((∃ e ∈ s.favorites, e.word = w) →
      (toggleFavoriteState₁ s w d).favorites
        = s.favorites.filter fun fav => fav.word != w) ∧
    ((¬ ∃ e ∈ s.favorites, e.word = w) →
      (toggleFavoriteState₁ s w d).favorites = s.favorites ++ [⟨w, d⟩]) ∧
    (toggleFavoriteState₁ s w d).localStorageFavorites
      = some (favoritesToJson (toggleFavoriteState₁ s w d).favorites) ∧
    ((∃ e ∈ s.favorites, e.word = w) →
      (toggleFavoriteState₂ s w d).favorites
        = s.favorites.filter fun fav => fav.word != w) ∧
    ((¬ ∃ e ∈ s.favorites, e.word = w) →
      (toggleFavoriteState₂ s w d).favorites = s.favorites ++ [⟨w, d⟩]) ∧
    (toggleFavoriteState₂ s w d).sessionStorageFavorites
      = some (favoritesToJson (toggleFavoriteState₂ s w d).favorites) := by
  refine ⟨fun h => ?_, fun h => ?_, rfl, fun h => ?_, fun h => ?_, rfl⟩
  · exact toggleFavorite₁_of_mem s.favorites w d h
  · exact toggleFavorite₁_of_not_mem s.favorites w d h
  · exact toggleFavorite₁_of_mem s.favorites w d h
  · exact toggleFavorite₁_of_not_mem s.favorites w d h

/-- Witness for `toggleFavorite_spec` at a concrete input: toggling
`"a"` on a state whose favorites are `[a]` removes it (and the toggle
on the empty collection appends). -/
theorem toggleFavorite_spec_witness :
    (toggleFavoriteState₁
        (initialState none none) "a" .null).favorites = [⟨"a", .null⟩] ∧
    (toggleFavoriteState₁
        { initialState none none with favorites := [⟨"a", .null⟩] } "a" .null).favorites
      = [] := by
  constructor
  · exact (toggleFavorite_spec (initialState none none) "a" .null).2.1
      (by rintro ⟨e, he, _⟩; exact absurd he (by simp [initialState]))
  · exact (toggleFavorite_spec
        { initialState none none with favorites := [⟨"a", .null⟩] } "a" .null).1
      ⟨⟨"a", .null⟩, by simp [initialState], rfl⟩

theorem uniqueWords_filter (favs : List FavoriteEntry) (p : FavoriteEntry → Bool)
    (hu : UniqueWords favs) : UniqueWords (favs.filter p) :=
  hu.sublist (List.filter_sublist favs)

/-- **C3**: starting from a favorites collection in which no two entries
share the same `word`, each operation preserves that invariant:
`toggleFavorite` and `removeFavorite` yield unique-word collections, and
the startup load of a persisted unique-word collection recovers exactly
that collection. -/
theorem favorites_unique_invariant (favs : List FavoriteEntry) (w : String) (d : Json)
    (s : DictState) (hu : UniqueWords favs)
    (hs : s.localStorageFavorites = some (favoritesToJson favs)) :
    UniqueWords (toggleFavorite₁ favs w d) ∧
    UniqueWords (removeFavorite₁ favs w) ∧
    ∃ s', loadFavoritesState₁ s = some s' ∧ s'.favorites = favs ∧
      UniqueWords s'.favorites := by
  refine ⟨?_, uniqueWords_filter favs _ hu, ?_⟩
  · by_cases h : ∃ e ∈ favs, e.word = w
    · rw [toggleFavorite₁_of_mem favs w d h]
      exact uniqueWords_filter favs _ hu
    · rw [toggleFavorite₁_of_not_mem favs w d h]
      refine List.pairwise_append.mpr ⟨hu, List.pairwise_singleton _ _, ?_⟩
      intro a ha b hb
      rw [List.mem_singleton] at hb
      subst hb
      exact fun hc => h ⟨a, ha, hc⟩
  · refine ⟨{ s with favorites := favs }, ?_, rfl, hu⟩
    unfold loadFavoritesState₁
    rw [hs, Option.getD_some, decodeFavorites_favoritesToJson]
    rfl

/-- Witness for `favorites_unique_invariant` at a concrete input: the
unique-word collection `[a, b]`, toggled with `"a"`, removed with
`"a"`, and loaded back from its serialization. -/
theorem favorites_unique_invariant_witness :
    UniqueWords (toggleFavorite₁ [⟨"a", .null⟩, ⟨"b", .null⟩] "a" .null) ∧
    UniqueWords (removeFavorite₁ [⟨"a", .null⟩, ⟨"b", .null⟩] "a") ∧
    ∃ s', loadFavoritesState₁
        (initialState (some (favoritesToJson [⟨"a", .null⟩, ⟨"b", .null⟩])) none)
        = some s' ∧
      s'.favorites = [⟨"a", .null⟩, ⟨"b", .null⟩] ∧ UniqueWords s'.favorites :=
  favorites_unique_invariant [⟨"a", .null⟩, ⟨"b", .null⟩] "a" .null
    (initialState (some (favoritesToJson [⟨"a", .null⟩, ⟨"b", .null⟩])) none)
    (by unfold UniqueWords; decide) rfl

/-- **C4**: when the upstream response arrives with a parseable JSON
body, a 2xx status makes the lookup take element 0 of the body array as
the definition and leave the error cleared, while a non-2xx status sets
the constant `NotFound` message (independent of the body) and leaves
the result cleared — in both lineages. -/
theorem searchWord_response_spec (s : DictState) (net : String → NetResult)
    (status : Nat) (data : Json)
    (hq : ¬ jsTrim s.word = "")
    (hnet : net (requestUrl s.word) = .response status (.ok data)) :
    (httpOk status = true → ∀ items, data = .arr items →
      ((searchWord₁ s net).1.definition = items[0]? ∧ (searchWord₁ s net).1.error = "" ∧
       (searchWord₂ s net).1.definition = items[0]? ∧ (searchWord₂ s net).1.error = "")) ∧
    (httpOk status = false →
      ((searchWord₁ s net).1.error = notFoundMessage ∧
       (searchWord₁ s net).1.definition = none ∧
       (searchWord₂ s net).1.error = notFoundMessage ∧
       (searchWord₂ s net).1.definition = none)) := by
  constructor
  · intro hok items hdata
    subst hdata
    refine ⟨?_, ?_, ?_, ?_⟩ <;> simp [searchWord₁, searchWord₂, hq, hnet, hok, jsIndex]
  · intro hnok
    refine ⟨?_, ?_, ?_, ?_⟩ <;> simp [searchWord₁, searchWord₂, hq, hnet, hnok]

/-- Witness for `searchWord_response_spec` at concrete inputs: a 200
response with a one-document array sets that document as the result;
a 404 response sets the generic `NotFound` message. -/
theorem searchWord_response_spec_witness :
    (searchWord₁ { initialState none none with word := "example" }
        (fun _ => .response 200 (.ok (.arr [.obj [("word", .str "example")]])))).1.definition
      = some (.obj [("word", .str "example")]) ∧
    (searchWord₁ { initialState none none with word := "nonexistentword" }
        (fun _ => .response 404 (.ok (.obj [("title", .str "No Definitions Found")])))).1.error
      = notFoundMessage :=
  ⟨((searchWord_response_spec { initialState none none with word := "example" }
      (fun _ => .response 200 (.ok (.arr [.obj [("word", .str "example")]])))
      200 (.arr [.obj [("word", .str "example")]])
      (by decide) rfl).1 (by decide) [.obj [("word", .str "example")]] rfl).1,
   ((searchWord_response_spec { initialState none none with word := "nonexistentword" }
      (fun _ => .response 404 (.ok (.obj [("title", .str "No Definitions Found")])))
      404 (.obj [("title", .str "No Definitions Found")])
      (by decide) rfl).2 (by decide)).1⟩

/-- **C5**: a query that is empty after trimming is rejected locally:
the only state change is the `EmptyQuery` validation message, and no
network request is issued — in both lineages. -/
theorem searchWord_empty_query (s : DictState) (net : String → NetResult)
    (hq : jsTrim s.word = "") :
    searchWord₁ s net = ({ s with error := emptyQueryMessage }, none) ∧
    searchWord₂ s net = ({ s with error := emptyQueryMessage }, none) := by
  constructor <;> simp [searchWord₁, searchWord₂, hq]

/-- Witness for `searchWord_empty_query`: `lookup("")` and
`lookup("   ")` both yield the `EmptyQuery` message and no request. -/
theorem searchWord_empty_query_witness :
    searchWord₁ (initialState none none) (fun _ => .failure "no network")
      = ({ initialState none none with error := emptyQueryMessage }, none) ∧
    searchWord₂ { initialState none none with word := "   " } (fun _ => .failure "no network")
      = ({ initialState none none with word := "   ", error := emptyQueryMessage }, none) :=
  ⟨(searchWord_empty_query (initialState none none) (fun _ => .failure "no network") rfl).1,
   (searchWord_empty_query { initialState none none with word := "   " }
      (fun _ => .failure "no network") (by decide)).2⟩

/-- **C6**: starting from a quiescent state (no lookup pending, as the
UI guarantees by disabling re-entry), every terminal case of the lookup
— success, `NotFound`, `Transport`, and the locally rejected
`EmptyQuery` — leaves the pending flag cleared; lineage part_001 leaves
the query field untouched, while lineage part_002 additionally resets
the query field to the empty string whenever a network lookup ran. -/
theorem searchWord_terminal_loading (s : DictState) (net : String → NetResult)
    (hl : s.loading = false) :
    (searchWord₁ s net).1.loading = false ∧
    (searchWord₂ s net).1.loading = false ∧
    (searchWord₁ s net).1.word = s.word ∧
    (∀ url, (searchWord₂ s net).2 = some url → (searchWord₂ s net).1.word = "") := by
  by_cases hq : jsTrim s.word = ""
  · refine ⟨?_, ?_, ?_, ?_⟩ <;> simp [searchWord₁, searchWord₂, hq, hl]
  · refine ⟨?_, ?_, ?_, ?_⟩
    · simp [searchWord₁, hq]
    · simp [searchWord₂, hq]
    · cases hnet : net (requestUrl s.word) with
      | response status body =>
        cases body with
        | ok data =>
          by_cases hok : httpOk status = true <;> simp [searchWord₁, hq, hnet, hok]
        | error msg => simp [searchWord₁, hq, hnet]
      | failure msg => simp [searchWord₁, hq, hnet]
    · intro url _
      simp [searchWord₂, hq]

/-- Witness for `searchWord_terminal_loading` at a concrete input. -/
theorem searchWord_terminal_loading_witness :
    (searchWord₁ { initialState none none with word := "w" }
        (fun _ => .response 200 (.ok (.arr [])))).1.loading = false ∧
    (searchWord₂ { initialState none none with word := "w" }
        (fun _ => .response 200 (.ok (.arr [])))).1.loading = false ∧
    (searchWord₁ { initialState none none with word := "w" }
        (fun _ => .response 200 (.ok (.arr [])))).1.word = "w" ∧
    (∀ url, (searchWord₂ { initialState none none with word := "w" }
        (fun _ => .response 200 (.ok (.arr [])))).2 = some url →
      (searchWord₂ { initialState none none with word := "w" }
        (fun _ => .response 200 (.ok (.arr [])))).1.word = "") :=
  searchWord_terminal_loading { initialState none none with word := "w" }
    (fun _ => .response 200 (.ok (.arr []))) rfl

/-- **C7**: when the fetch promise rejects or the response body fails
JSON decoding, the lookup sets the `Transport` message carrying the
underlying error message, the result stays cleared, and exactly the one
request was issued (no retry) — in both lineages. -/
theorem searchWord_transport_error (s : DictState) (net : String → NetResult) (msg : String)
    (hq : ¬ jsTrim s.word = "")
    (hnet : net (requestUrl s.word) = .failure msg ∨
            ∃ status, net (requestUrl s.word) = .response status (.error msg)) :
    (searchWord₁ s net).1.error = transportMessage msg ∧
    (searchWord₁ s net).1.definition = none ∧
    (searchWord₁ s net).2 = some (requestUrl s.word) ∧
    (searchWord₂ s net).1.error = transportMessage msg ∧
    (searchWord₂ s net).1.definition = none ∧
    (searchWord₂ s net).2 = some (requestUrl s.word) := by
  rcases hnet with h | ⟨status, h⟩ <;>
    refine ⟨?_, ?_, ?_, ?_, ?_, ?_⟩ <;> simp [searchWord₁, searchWord₂, hq, h]

/-- Witness for `searchWord_transport_error` at a concrete input: a
rejected fetch with message `"Failed to fetch"`. -/
theorem searchWord_transport_error_witness :
    (searchWord₁ { initialState none none with word := "w" }
        (fun _ => .failure "Failed to fetch")).1.error
      = "An error occurred: Failed to fetch" ∧
    (searchWord₁ { initialState none none with word := "w" }
        (fun _ => .failure "Failed to fetch")).1.definition = none :=
  ⟨(searchWord_transport_error { initialState none none with word := "w" }
      (fun _ => .failure "Failed to fetch") "Failed to fetch" (by decide) (.inl rfl)).1,
   (searchWord_transport_error { initialState none none with word := "w" }
      (fun _ => .failure "Failed to fetch") "Failed to fetch" (by decide) (.inl rfl)).2.1⟩

/-- **C10**: whenever the trimmed query is non-empty, the issued GET
request interpolates the original, untrimmed, un-encoded query string
verbatim into the URL template — in both lineages. -/
theorem searchWord_url_raw_query (s : DictState) (net : String → NetResult)
    (hq : ¬ jsTrim s.word = "") :
    (searchWord₁ s net).2
      = some ("https://api.dictionaryapi.dev/api/v2/entries/en/" ++ s.word) ∧
    (searchWord₂ s net).2
      = some ("https://api.dictionaryapi.dev/api/v2/entries/en/" ++ s.word) := by
  constructor <;> simp [searchWord₁, searchWord₂, hq, requestUrl]

/-- Witness for `searchWord_url_raw_query` at a concrete input: the
query `"  cat "` passes validation (its trimmed form is `"cat"`) but
its surrounding whitespace is sent verbatim. -/
theorem searchWord_url_raw_query_witness :
    (searchWord₁ { initialState none none with word := "  cat " }
        (fun _ => .failure "x")).2
      = some "https://api.dictionaryapi.dev/api/v2/entries/en/  cat " :=
  (searchWord_url_raw_query { initialState none none with word := "  cat " }
    (fun _ => .failure "x") (by decide)).1

theorem countP_word_le_one (favs : List FavoriteEntry) (w : String)
    (hu : UniqueWords favs) :
    (favs.countP fun e => e.word == w) ≤ 1 := by
  induction favs with
  | nil => simp
  | cons e t ih =>
    obtain ⟨hhead, htail⟩ := List.pairwise_cons.mp hu
    rw [List.countP_cons]
    by_cases he : e.word = w
    · have ht : (t.countP fun x => x.word == w) = 0 := by
        rw [List.countP_eq_zero]
        intro x hx
        simp only [beq_iff_eq]
        exact fun hc => hhead x hx (he.trans hc.symm)
      simp [he, ht]
    · have := ih htail
      simp only [beq_iff_eq, he, if_false]
      omega

/-- **C8**: `remove(word)` filters out every entry whose `word` field
matches exactly (at most one when the collection satisfies the
uniqueness invariant) and re-serializes the whole collection; in
particular, after `toggle("example", d)` followed by
`remove("example")`, the word is no longer a favorite and the persisted
collection contains no entry for it. -/
theorem removeFavorite_spec (s : DictState) (w : String) (d : Json) :
    (removeFavoriteState₁ s w).favorites
      = (s.favorites.filter fun fav => fav.word != w) ∧
    (∀ e ∈ (removeFavoriteState₁ s w).favorites, e.word ≠ w) ∧
    (UniqueWords s.favorites → (s.favorites.countP fun e => e.word == w) ≤ 1) ∧
    (removeFavoriteState₁ s w).localStorageFavorites
      = some (favoritesToJson (removeFavoriteState₁ s w).favorites) ∧
    isFavorite (removeFavoriteState₁ (toggleFavoriteState₁ s "example" d) "example").favorites
      "example" = false ∧
    (removeFavoriteState₁ (toggleFavoriteState₁ s "example" d) "example").localStorageFavorites
      = some (favoritesToJson
          (removeFavoriteState₁ (toggleFavoriteState₁ s "example" d) "example").favorites) ∧
    ∀ e ∈ (removeFavoriteState₁ (toggleFavoriteState₁ s "example" d) "example").favorites,
      e.word ≠ "example" := by
  refine ⟨rfl, ?_, fun hu => countP_word_le_one s.favorites w hu, rfl, ?_, rfl, ?_⟩
  · intro e he
    exact ((mem_filter_word_ne s.favorites w e).mp he).2
  · rw [isFavorite, List.any_eq_false]
    intro e he
    have := ((mem_filter_word_ne _ "example" e).mp he).2
    simpa using this
  · intro e he
    exact ((mem_filter_word_ne _ "example" e).mp he).2

/-- Witness for `removeFavorite_spec` at a concrete input, discharging
the uniqueness hypothesis of the at-most-one-match conjunct. -/
theorem removeFavorite_spec_witness :
    isFavorite (removeFavoriteState₁ (toggleFavoriteState₁ (initialState none none)
        "example" .null) "example").favorites "example" = false ∧
    ([(⟨"a", .null⟩ : FavoriteEntry)].countP fun e => e.word == "a") ≤ 1 :=
  ⟨(removeFavorite_spec (initialState none none) "x" .null).2.2.2.2.1,
   (removeFavorite_spec
      { initialState none none with favorites := [⟨"a", .null⟩] } "a" .null).2.2.1
     (by unfold UniqueWords; decide)⟩

/-- **C9**: the two source lineages implement extensionally equal
favorites-state transitions (`toggleFavorite` and `removeFavorite`
compute the same lists and the same serialized document), differing
only in which storage slot receives the serialization; their lookup
functions issue the same request and produce the same state except for
lineage part_002's query-field reset. -/
theorem lineages_equivalent (favs : List FavoriteEntry) (w : String) (d : Json)
    (s : DictState) (net : String → NetResult) :
    toggleFavorite₁ favs w d = toggleFavorite₂ favs w d ∧
    removeFavorite₁ favs w = removeFavorite₂ favs w ∧
    (toggleFavoriteState₁ s w d).favorites = (toggleFavoriteState₂ s w d).favorites ∧
    (toggleFavoriteState₁ s w d).localStorageFavorites
      = (toggleFavoriteState₂ s w d).sessionStorageFavorites ∧
    (toggleFavoriteState₂ s w d).localStorageFavorites = s.localStorageFavorites ∧
    (toggleFavoriteState₁ s w d).sessionStorageFavorites = s.sessionStorageFavorites ∧
    (searchWord₁ s net).2 = (searchWord₂ s net).2 ∧
    { (searchWord₂ s net).1 with word := (searchWord₁ s net).1.word }
      = (searchWord₁ s net).1 := by
  refine ⟨rfl, rfl, rfl, rfl, rfl, rfl, ?_, ?_⟩
  · by_cases hq : jsTrim s.word = "" <;> simp [searchWord₁, searchWord₂, hq]
  · by_cases hq : jsTrim s.word = ""
    · simp [searchWord₁, searchWord₂, hq]
    · cases hnet : net (requestUrl s.word) with
      | response status body =>
        cases body with
        | ok data =>
          by_cases hok : httpOk status = true <;>
            simp [searchWord₁, searchWord₂, hq, hnet, hok]
        | error msg => simp [searchWord₁, searchWord₂, hq, hnet]
      | failure msg => simp [searchWord₁, searchWord₂, hq, hnet]
